import Mathlib

/-!
Shallow embedding of the neilh44/cryptobot conversational agent, covering:

* `app/agent/agent.py` — the conversation-memory update (`CryptoAgent._update_memory`);
* `app/agent/tools/rejection_tool.py` — `RejectionTool._run` / `_extract_topic`;
* `app/agent/tools/binance_tool.py` — `BinancePriceTool._run`;
* `app/agent/tools/kb_tool.py` — `KnowledgeBaseTool._run`;
* `app/api/endpoints.py` — the `chat` endpoint;
* the tool-routing agent loop (which in the repository is delegated to the
  external langchain `AgentExecutor`), modelled from the spec.

Python strings are modelled by Lean `String`; Python `str.upper()/.lower()/.strip()`
and the substring test `needle in hay` are given explicit executable models below.
Python numbers parsed by `float(...)` are modelled as rationals (`Rat`), and
`json.dumps` of a dict is modelled by a structure carrying the same fields, so
that a returned JSON string is represented by its (injective) field content.
External effects (HTTP calls to Binance, the vector-store search, the language
model) are supplied as explicit function parameters.
-/

/-- Model of Python `str.upper()`: uppercase every character. -/
def pyUpper (s : String) : String := ⟨s.data.map Char.toUpper⟩

/-- Model of Python `str.lower()`: lowercase every character. -/
def pyLower (s : String) : String := ⟨s.data.map Char.toLower⟩

/-- Model of Python `str.strip()`: drop whitespace from both ends. -/
def pyStrip (s : String) : String :=
  ⟨((s.data.dropWhile Char.isWhitespace).reverse.dropWhile Char.isWhitespace).reverse⟩

/-- Model of the Python membership test `needle in hay` on strings:
`needle` occurs as a contiguous substring of `hay`. -/
def strContains (hay needle : String) : Bool := decide (needle.data <:+: hay.data)

/-- Model of the Python slice `l[-k:]` for a nonnegative `k`:
for `k = 0` Python's `l[-0:]` is `l[0:]`, i.e. the whole list;
otherwise the last `k` elements (all of `l` when `k ≥ len(l)`). -/
def pySliceLast {α : Type} (l : List α) (k : Nat) : List α :=
  if k = 0 then l else l.drop (l.length - k)

/-! ## Conversation memory (`app/agent/agent.py`, `CryptoAgent._update_memory`)

`self.memory` is a Python list of dicts `{"role": ..., "content": ...}`.
`_update_memory` appends the human and the assistant turn of the completed
exchange and then trims to the last `settings.MEMORY_WINDOW * 2` entries when
the length exceeds that cap.  `W` stands for `settings.MEMORY_WINDOW`. -/

/-- One conversation turn, `{"role": ..., "content": ...}` in the source. -/
structure Turn where
  role : String
  content : String
deriving DecidableEq, Repr

namespace CryptoAgent

/-- `CryptoAgent._update_memory`: append the two turns of the exchange, then
`if len(memory) > W * 2: memory = memory[-W * 2:]`. -/
def update_memory (W : Nat) (memory : List Turn) (user_input assistant_response : String) :
    List Turn :=
  let m := memory ++ [{ role := "human", content := user_input },
                      { role := "assistant", content := assistant_response }]
  if W * 2 < m.length then pySliceLast m (W * 2) else m

/-- The two turns contributed by one exchange `(user_text, assistant_text)`. -/
def exchangeTurns (p : String × String) : List Turn :=
  [{ role := "human", content := p.1 }, { role := "assistant", content := p.2 }]

/-- Memory contents after a sequence of exchanges has been fed through
`_update_memory`, starting from the empty memory of `__init__`. -/
def memory_after (W : Nat) (exchanges : List (String × String)) : List Turn :=
  exchanges.foldl (fun mem p => update_memory W mem p.1 p.2) []


end CryptoAgent

/-! ## Rejection tool (`app/agent/tools/rejection_tool.py`)

`RejectionTool._run` picks one of three fixed message templates by
`hash(query) % len(responses)` and fills in the topic found by
`_extract_topic`.  The built-in `hash` is a fixed (per-process) function of the
string, supplied here as the explicit parameter `pyHash`; Python's `%` on a
possibly negative hash with positive modulus yields a nonnegative result, which
is `Int.emod` (the `%` of `Int`).  The template texts are copied byte-for-byte
from the source (they contain mojibake characters, preserved as-is). -/

namespace RejectionTool

/-- The static redirect target named in every template. -/
def redirect_target : String := "https://automatealgos.in"

/-- The `topic_keywords` dict of `_extract_topic`, in insertion order
(Python dicts iterate in insertion order). -/
def topic_keywords : List (String × String) :=
  [("weather", "weather"),
   ("sport", "sports"),
   ("politic", "politics"),
   ("cook", "cooking"),
   ("travel", "travel"),
   ("health", "health"),
   ("movie", "entertainment"),
   ("book", "books"),
   ("music", "music"),
   ("news", "general news"),
   ("science", "science"),
   ("history", "history")]

/-- `RejectionTool._extract_topic`: the first keyword that occurs in the
lowercased query wins; the default is `"general topics"`. -/
def extract_topic (query : String) : String :=
  let query_lower := pyLower query
  match topic_keywords.find? (fun kv => strContains query_lower kv.1) with
  | some kv => kv.2
  | none => "general topics"

/-- First response template (the f-string split at `topic`). -/
def response₀ (topic : String) : String :=
  "ðŸ¤– I\x27m specialized in cryptocurrency trading only!\n\nFor **"
  ++ (topic ++ ("** questions, check out:\nðŸŒ **"
  ++ (redirect_target
  ++ "**\n\nI can help with:\nðŸ“ˆ Crypto prices & market data\nðŸ“Š Trading strategies\nðŸ“š Crypto education\n\nWhat crypto trading topic can I assist with? ðŸš€")))

/-- Second response template. -/
def response₁ (topic : String) : String :=
  "ðŸŽ¯ I focus exclusively on crypto trading assistance!\n\nFor **"
  ++ (topic ++ ("** related queries, visit:\nðŸŒ **"
  ++ (redirect_target
  ++ "**\n\nI\x27m your go-to for:\nðŸ’° Live crypto prices\nðŸ“‰ Technical analysis\nâš–ï¸ Risk management\n\nAny crypto trading questions? ðŸ“Š")))

/-- Third response template. -/
def response₂ (topic : String) : String :=
  "ðŸ¤– My expertise is cryptocurrency trading only!\n\nFor **"
  ++ (topic ++ ("** information, please see:\nðŸŒ **"
  ++ (redirect_target
  ++ "**\n\nI can help you with:\nðŸš€ Market insights\nðŸ“ˆ Trading education  \nðŸ’¡ Strategy guidance\n\nWhat\x27s your crypto trading question? ðŸ’°")))

/-- The `responses` list of `_run`, with the topic filled in. -/
def responses (topic : String) : List String :=
  [response₀ topic, response₁ topic, response₂ topic]

/-- `RejectionTool._run`: extract the topic, then select
`responses[hash(query) % len(responses)]`. -/
def run (pyHash : String → Int) (query : String) : String :=
  let topic := extract_topic query
  let rs := responses topic
  let selection := pyHash query % (rs.length : Int)
  rs.getD selection.toNat ""

end RejectionTool


/-! ## Binance market-data tool (`app/agent/tools/binance_tool.py`)

`BinancePriceTool._run` normalizes the symbol (`symbol.upper().strip()`),
validates its length, performs two upstream requests
(`get_ticker_price`, `get_ticker_24hr`, each of which sends `symbol.upper()`),
and formats the result as a JSON dict.  The whole body sits inside a
`try/except Exception` whose handler returns a structured error dict, so every
internal fault becomes data.  Upstream behavior is supplied as the function
parameters `get_price` / `get_24hr` returning `Except` (a raised exception is
`.error msg`); numeric fields parsed by `float(...)` are rationals; the two
wall-clock reads (`time.time()`, `time.strftime(...)`) are the parameters
`now_ms` / `now_str`.  `json.dumps(d, indent=2)` is modelled by returning the
dict itself (as a structure with the same fields in the same order). -/

namespace BinancePriceTool

/-- Model of Python `round(x, 2)`: round to 2 decimal places, ties to even. -/
def pyRound2 (x : Rat) : Rat :=
  let y := x * 100
  let n : Int := Rat.floor y
  let r : Rat := y - (n : Rat)
  let m : Int :=
    if r < 1 / 2 then n
    else if 1 / 2 < r then n + 1
    else if n % 2 = 0 then n else n + 1
  (m : Rat) / 100

/-- Payload of `/api/v3/ticker/price` as read by `_run`
(`price_data.get("price", 0)`). -/
structure TickerPrice where
  price : Option Rat
deriving DecidableEq, Repr

/-- Payload of `/api/v3/ticker/24hr` as read by `_run` (each field is read with
`stats_data.get(key, default)`, so each is optional). -/
structure Ticker24h where
  priceChange : Option Rat
  priceChangePercent : Option Rat
  highPrice : Option Rat
  lowPrice : Option Rat
  volume : Option Rat
  quoteVolume : Option Rat
  openPrice : Option Rat
  prevClosePrice : Option Rat
  bidPrice : Option Rat
  askPrice : Option Rat
  closeTime : Option Int
deriving DecidableEq, Repr

/-- The success dict built by `_run` (field order as in the source). -/
structure PriceResponse where
  symbol : String
  current_price : Rat
  price_change_24h : Rat
  price_change_percent_24h : Rat
  high_24h : Rat
  low_24h : Rat
  volume_24h : Rat
  quote_volume_24h : Rat
  open_price : Rat
  close_price : Rat
  bid_price : Rat
  ask_price : Rat
  timestamp : Int
  trend : String
  data_source : String
  status : String
  last_updated : String
deriving DecidableEq, Repr

/-- The error dict built by the `except` handler of `_run`. -/
structure ErrorResponse where
  error : Bool
  message : String
  symbol : String
  data_source : String
  status : String
  timestamp : Int
deriving DecidableEq, Repr

/-- The JSON string returned by `_run`, represented by its content. -/
inductive RunOutput where
  | success (r : PriceResponse)
  | failure (e : ErrorResponse)
deriving DecidableEq, Repr

/-- One upstream HTTPS request issued by `_make_request`. -/
inductive UpstreamRequest where
  | tickerPrice (symbol : String)
  | ticker24hr (symbol : String)
deriving DecidableEq, Repr

/-- The body of the `try:` block of `_run`, together with the list of upstream
requests it issues (in order).  A `.error` value is a raised exception with
the message `str(e)`. -/
def body (get_price : String → Except String TickerPrice)
    (get_24hr : String → Except String Ticker24h)
    (now_ms : Int) (now_str : String) (symbol0 : String) :
    Except String PriceResponse × List UpstreamRequest :=
  let symbol := pyStrip (pyUpper symbol0)
  if symbol = "" ∨ symbol.length < 6 then
    (.error ("Invalid symbol format: " ++ symbol ++ ". Use format like BTCUSDT"), [])
  else
    match get_price (pyUpper symbol) with
    | .error e => (.error e, [.tickerPrice (pyUpper symbol)])
    | .ok price_data =>
      match get_24hr (pyUpper symbol) with
      | .error e => (.error e, [.tickerPrice (pyUpper symbol), .ticker24hr (pyUpper symbol)])
      | .ok stats_data =>
        let price_change_percent := stats_data.priceChangePercent.getD 0
        let trend_emoji : String :=
          if price_change_percent > 0 then "📈"
          else if price_change_percent < 0 then "📉" else "➡️"
        (.ok {
          symbol := symbol
          current_price := price_data.price.getD 0
          price_change_24h := stats_data.priceChange.getD 0
          price_change_percent_24h := pyRound2 (stats_data.priceChangePercent.getD 0)
          high_24h := stats_data.highPrice.getD 0
          low_24h := stats_data.lowPrice.getD 0
          volume_24h := stats_data.volume.getD 0
          quote_volume_24h := stats_data.quoteVolume.getD 0
          open_price := stats_data.openPrice.getD 0
          close_price := stats_data.prevClosePrice.getD 0
          bid_price := stats_data.bidPrice.getD 0
          ask_price := stats_data.askPrice.getD 0
          timestamp := stats_data.closeTime.getD now_ms
          trend := trend_emoji
          data_source := "Binance API"
          status := "LIVE"
          last_updated := now_str },
          [.tickerPrice (pyUpper symbol), .ticker24hr (pyUpper symbol)])

/-- `BinancePriceTool._run`: the `try` body with its `except Exception`
handler, which turns any raised fault into the error dict.  (At the point the
handler reads `symbol`, the local has always already been rebound to
`symbol.upper().strip()`.) -/
def run (get_price : String → Except String TickerPrice)
    (get_24hr : String → Except String Ticker24h)
    (now_ms : Int) (now_str : String) (symbol0 : String) :
    RunOutput × List UpstreamRequest :=
  match body get_price get_24hr now_ms now_str symbol0 with
  | (.ok r, reqs) => (.success r, reqs)
  | (.error e, reqs) =>
    (.failure {
      error := true
      message := "Failed to retrieve live price data for "
        ++ (pyStrip (pyUpper symbol0) ++ (": " ++ e))
      symbol := pyStrip (pyUpper symbol0)
      data_source := "Binance API"
      status := "ERROR"
      timestamp := now_ms }, reqs)

end BinancePriceTool

/-! ## Knowledge-base tool (`app/agent/tools/kb_tool.py`)

`KnowledgeBaseTool._run(query, k=5)` returns a fixed unavailability string when
`self.vector_store` is `None`, catches any exception from
`similarity_search` into an error string, returns a fixed "no results" string
for an empty hit list, and otherwise formats the hits (numbered from 1 by
`enumerate(results, 1)`) into a JSON dict.  The vector store is modelled as an
optional search function; the JSON string is represented by its content. -/

namespace KnowledgeBaseTool

/-- A document returned by `similarity_search` (`page_content` + `metadata`). -/
structure Document where
  page_content : String
  metadata : List (String × String)
deriving DecidableEq, Repr

/-- One entry of the `formatted_results` list built by the loop in `_run`. -/
structure FormattedResult where
  result : Nat
  content : String
  metadata : List (String × String)
deriving DecidableEq, Repr

/-- The string returned by `_run`, represented by its content: either one of
the literal message strings, or the dumped JSON dict. -/
inductive RunOutput where
  | text (s : String)
  | json (query : String) (results : List FormattedResult) (total_results : Nat)
deriving DecidableEq, Repr

/-- The `for i, doc in enumerate(results, 1)` loop of `_run`. -/
def format_results : Nat → List Document → List FormattedResult
  | _, [] => []
  | i, d :: ds =>
    { result := i, content := d.page_content, metadata := d.metadata } :: format_results (i + 1) ds

/-- `KnowledgeBaseTool._run`.  `vector_store` is `None` or a search function;
a search that raises is modelled by `.error` with the exception text;
the schema default for `k` is 5. -/
def run (vector_store : Option (String → Nat → Except String (List Document)))
    (query : String) (k : Nat := 5) : RunOutput :=
  match vector_store with
  | none => .text "Knowledge base is not available. Please check the configuration."
  | some search =>
    match search query k with
    | .error e => .text ("Error searching knowledge base: " ++ e)
    | .ok results =>
      if results.isEmpty then .text "No relevant information found in the knowledge base."
      else
        let formatted_results := format_results 1 results
        .json query formatted_results formatted_results.length


end KnowledgeBaseTool

/-! ## Chat endpoint (`app/api/endpoints.py`, `chat`)

The handler calls `agent.process_message(request.message)` inside a `try:`;
on success it returns `{"session_id": ..., "response": ..., "status":
"success"}`, and on any exception it raises
`HTTPException(500, detail=f"Error processing message: {str(e)}")`, which
FastAPI renders to the client as the error response body.  `process_message`
is supplied as a parameter; a raised exception is `.error` with `str(e)`. -/

namespace Endpoints

/-- What the client receives from the `chat` route: either the success dict or
the `HTTPException` (status code + detail string). -/
inductive ChatOutcome where
  | response (session_id : String) (resp : String) (status : String)
  | httpError (status_code : Nat) (detail : String)
deriving DecidableEq, Repr

/-- The `chat` endpoint handler. -/
def chat (process_message : String → Except String String)
    (session_id message : String) : ChatOutcome :=
  match process_message message with
  | .ok out => .response session_id out "success"
  | .error e => .httpError 500 ("Error processing message: " ++ e)

end Endpoints

/-! ## Agent loop

The repository delegates the tool-routing loop to the external langchain
`AgentExecutor` built in `CryptoAgent._create_agent_executor`; the loop body is
not part of the repository.  It is therefore modelled from the spec (§4.5,
§7): the loop calls the model; a `FinalAnswer` ends the loop; `ToolCalls` are
each executed and their results appended to the transcript as tool-turns
tagged with the `call_id`; an empty `ToolCalls` is treated as a no-op
final-answer fallback; on reaching the iteration ceiling without a final
answer the loop ends with the degraded answer. -/

namespace AgentLoop

/-- Modelled from the spec: `ToolCallRequest` (§3), produced by the model. -/
structure ToolCallRequest where
  call_id : String
  tool_name : String
  arguments : List (String × String)

/-- Modelled from the spec: the two shapes of a model completion (§4.2). -/
inductive ModelResult where
  | finalAnswer (text : String)
  | toolCalls (calls : List ToolCallRequest)

/-- Modelled from the spec: `ToolResult` (§3), returned by the tool executor. -/
inductive ToolOutcome where
  | success (call_id : String) (payload : String)
  | failure (call_id : String) (error_kind : String) (message : String)

/-- Modelled from the spec: one entry of the transcript (§3). -/
inductive TranscriptEntry where
  | system (text : String)
  | human (text : String)
  | assistant (text : String)
  | tool (call_id : String) (content : String)

/-- Modelled from the spec: the degraded answer produced when the iteration
ceiling is reached without a `FinalAnswer` (§7). -/
def degraded_answer : String := "I was unable to complete this request."

/-- Modelled from the spec: a tool result is appended to the transcript as a
tool-turn tagged with its `call_id` (§4.5). -/
def tool_turn : ToolOutcome → TranscriptEntry
  | .success cid payload => .tool cid payload
  | .failure cid kind msg => .tool cid (kind ++ (": " ++ msg))

/-- Modelled from the spec: the `AwaitingModel ↔ ExecutingTools` loop with its
iteration ceiling (§4.5), which in the reference lives inside the external
langchain `AgentExecutor`.  Returns the final text together with the number of
model invocations made. -/
def loop (model : List TranscriptEntry → ModelResult)
    (execute : ToolCallRequest → ToolOutcome) :
    Nat → List TranscriptEntry → String × Nat
  | 0, _ => (degraded_answer, 0)
  | fuel + 1, transcript =>
    match model transcript with
    | .finalAnswer text => (text, 1)
    | .toolCalls calls =>
      if calls.isEmpty then (degraded_answer, 1)
      else
        let rest := loop model execute fuel
          (transcript ++ calls.map (fun c => tool_turn (execute c)))
        (rest.1, rest.2 + 1)

/-- Modelled from the spec: `process_message` builds the transcript from the
system instructions, the chat history and the new user turn, and runs the
loop (§4.5); only the final text is returned. -/
def process_message (model : List TranscriptEntry → ModelResult)
    (execute : ToolCallRequest → ToolOutcome) (ceiling : Nat)
    (system_prompt : String) (chat_history : List TranscriptEntry)
    (user_input : String) : String :=
  (loop model execute ceiling
    (.system system_prompt :: chat_history ++ [.human user_input])).1

/-- A stub model that always requests one tool call, used as a witness. -/
def stub_model : List TranscriptEntry → ModelResult :=
  fun _ => .toolCalls [{ call_id := "call_1", tool_name := "binance_price", arguments := [] }]

/-- A stub executor that always fails, used as a witness. -/
def stub_execute : ToolCallRequest → ToolOutcome :=
  fun c => .failure c.call_id "ToolRuntimeError" "boom"

end AgentLoop

/-! ## Helper lemmas -/

/-- `List.find?` returns `none` when the predicate holds nowhere. -/
theorem find?_eq_none_of_all {α : Type} (p : α → Bool) (l : List α)
    (h : ∀ x ∈ l, p x = false) : l.find? p = none := by
  rw [List.find?_eq_none]
  intro x hx
  simp [h x hx]

/-- `List.find?` returns the first element satisfying the predicate. -/
theorem find?_eq_get_of_first {α : Type} (p : α → Bool) :
    ∀ (l : List α) (i : Nat) (hi : i < l.length),
      p (l.get ⟨i, hi⟩) = true →
      (∀ j (hj : j < i), p (l.get ⟨j, Nat.lt_trans hj hi⟩) = false) →
      l.find? p = some (l.get ⟨i, hi⟩)
  | [], i, hi, _, _ => absurd hi (by simp)
  | x :: xs, 0, _, hp, _ => by
    simp only [List.get] at hp ⊢
    simp [List.find?, hp]
  | x :: xs, i + 1, hi, hp, hfirst => by
    have hx : p x = false := by
      have h := hfirst 0 (Nat.succ_pos i)
      simpa using h
    have hi' : i < xs.length := by simpa using hi
    have hp' : p (xs.get ⟨i, hi'⟩) = true := by simpa using hp
    have hfirst' : ∀ j (hj : j < i), p (xs.get ⟨j, Nat.lt_trans hj hi'⟩) = false := by
      intro j hj
      have h := hfirst (j + 1) (Nat.succ_lt_succ hj)
      simpa using h
    have hrec := find?_eq_get_of_first p xs i hi' hp' hfirst'
    simp only [List.find?, hx]
    simpa using hrec

namespace CryptoAgent

theorem memory_after_snoc (W : Nat) (exs : List (String × String)) (p : String × String) :
    memory_after W (exs ++ [p]) = update_memory W (memory_after W exs) p.1 p.2 := by
  simp [memory_after, List.foldl_append]

theorem update_memory_eq (W : Nat) (memory : List Turn) (p : String × String) :
    update_memory W memory p.1 p.2 =
      if W * 2 < (memory ++ exchangeTurns p).length
      then pySliceLast (memory ++ exchangeTurns p) (W * 2)
      else memory ++ exchangeTurns p := rfl

theorem length_exchangeTurns_flatMap (l : List (String × String)) :
    (l.flatMap exchangeTurns).length = 2 * l.length := by
  induction l with
  | nil => rfl
  | cons x xs ih =>
    rw [List.flatMap_cons, List.length_append, ih]
    simp [exchangeTurns]
    omega

/-- Characterization of the memory for a positive window: after any sequence of
exchanges the memory is exactly the flattening of the most recent
`min N W` exchanges. -/
theorem memory_after_eq (W : Nat) (hW : 0 < W) (exs : List (String × String)) :
    memory_after W exs = (exs.drop (exs.length - W)).flatMap exchangeTurns := by
  induction exs using List.reverseRecOn with
  | nil => simp [memory_after]
  | append_singleton exs p ih =>
    rw [memory_after_snoc, ih, update_memory_eq]
    rcases Nat.lt_or_ge exs.length W with hlt | hge
    · -- no trim yet: the whole history fits in the window
      have h₀ : exs.length - W = 0 := by omega
      have h₁ : (exs ++ [p]).length - W = 0 := by simp; omega
      rw [h₀, List.drop_zero, h₁, List.drop_zero]
      have hlen : (exs.flatMap exchangeTurns ++ exchangeTurns p).length
          = 2 * exs.length + 2 := by
        rw [List.length_append, length_exchangeTurns_flatMap]; rfl
      rw [if_neg (by rw [hlen]; omega)]
      simp
    · -- the window is full: the oldest exchange is evicted
      have hlenW : (exs.drop (exs.length - W)).length = W := by
        rw [List.length_drop]; omega
      obtain ⟨c, t, hct⟩ : ∃ c t, exs.drop (exs.length - W) = c :: t := by
        cases h : exs.drop (exs.length - W) with
        | nil => rw [h] at hlenW; simp at hlenW; omega
        | cons c t => exact ⟨c, t, rfl⟩
      have htlen : t.length = W - 1 := by
        have h := hlenW
        rw [hct] at h
        simp at h
        omega
      have hmlen : ((exs.drop (exs.length - W)).flatMap exchangeTurns
          ++ exchangeTurns p).length = 2 * W + 2 := by
        rw [List.length_append, length_exchangeTurns_flatMap, hlenW]; rfl
      rw [if_pos (by rw [hmlen]; omega)]
      rw [pySliceLast, if_neg (by omega), hmlen]
      have hdrop2 : 2 * W + 2 - W * 2 = 2 := by omega
      rw [hdrop2, hct]
      have hrhs : (exs ++ [p]).drop ((exs ++ [p]).length - W) = t ++ [p] := by
        have hlen' : (exs ++ [p]).length - W = (exs.length - W) + 1 := by simp; omega
        rw [hlen', List.drop_append_of_le_length (by omega), ← List.tail_drop, hct]
        simp
      rw [hrhs]
      simp [exchangeTurns]

/-- For `W = 0`, the Python slice `memory[-0:]` keeps the whole list, so the
memory is never actually trimmed: it accumulates every exchange. -/
theorem memory_after_zero (exs : List (String × String)) :
    memory_after 0 exs = exs.flatMap exchangeTurns := by
  induction exs using List.reverseRecOn with
  | nil => simp [memory_after]
  | append_singleton exs p ih =>
    rw [memory_after_snoc, ih, update_memory_eq]
    rw [if_pos (by simp [exchangeTurns])]
    rw [pySliceLast, if_pos rfl]
    simp

/-- The roles in a flattening of whole exchanges strictly alternate
`human, assistant, human, assistant, …`. -/
theorem roles_exchangeTurns_flatMap (l : List (String × String)) :
    (l.flatMap exchangeTurns).map Turn.role =
      (List.replicate l.length ["human", "assistant"]).flatten := by
  induction l with
  | nil => simp
  | cons x xs ih => simp [exchangeTurns, ih, List.replicate_succ]

end CryptoAgent

namespace KnowledgeBaseTool

theorem format_results_length (i : Nat) (docs : List Document) :
    (format_results i docs).length = docs.length := by
  induction docs generalizing i with
  | nil => rfl
  | cons d ds ih => simp [format_results, ih]

theorem format_results_content (i : Nat) (docs : List Document) :
    (format_results i docs).map FormattedResult.content = docs.map Document.page_content := by
  induction docs generalizing i with
  | nil => rfl
  | cons d ds ih => simp [format_results, ih]

theorem format_results_metadata (i : Nat) (docs : List Document) :
    (format_results i docs).map FormattedResult.metadata = docs.map Document.metadata := by
  induction docs generalizing i with
  | nil => rfl
  | cons d ds ih => simp [format_results, ih]

theorem format_results_ranks (i : Nat) (docs : List Document) :
    (format_results i docs).map FormattedResult.result = List.range' i docs.length := by
  induction docs generalizing i with
  | nil => rfl
  | cons d ds ih => simp [format_results, ih, List.range'_succ]

end KnowledgeBaseTool

/-! ## Claims -/

/-- Claim C1, counterexample: as stated, the memory-bound claim quantifies over
every window size `W`.  For `W = 0` it fails on the code: after one exchange
the memory length is 2, not `min (2·1) (2·0) = 0`, because the Python trim
`memory[-W * 2:]` is `memory[-0:]`, which keeps the whole list. -/
theorem update_memory_window_zero_violates_bound :
    ¬ ((CryptoAgent.memory_after 0 [("u", "a")]).length = min (2 * 1) (2 * 0)) := by
  decide

/-- Claim C1 (amended: for window size `W ≥ 1`): for every sequence of
exchanges fed through `_update_memory` and every prefix of `k` of them, the
memory after the `k`-th call has length `min (2k) (2W)` and consists exactly
of the turns of the most recent `min k W` exchanges in chronological order
(the oldest turns having been evicted first). -/
theorem memory_bound_and_retention (W : Nat) (hW : 1 ≤ W) (exs : List (String × String))
    (k : Nat) (hk : k ≤ exs.length) :
    (CryptoAgent.memory_after W (exs.take k)).length = min (2 * k) (2 * W) ∧
    CryptoAgent.memory_after W (exs.take k) =
      ((exs.take k).drop (k - min k W)).flatMap CryptoAgent.exchangeTurns := by
  have hlen : (exs.take k).length = k := by rw [List.length_take]; omega
  have h := CryptoAgent.memory_after_eq W (by omega) (exs.take k)
  rw [hlen] at h
  constructor
  · rw [h, CryptoAgent.length_exchangeTurns_flatMap, List.length_drop, hlen]
    omega
  · rw [h]
    have hmin : k - W = k - min k W := by omega
    rw [hmin]

/-- Witness for the amended Claim C1 at `W = 1` and two exchanges. -/
theorem memory_bound_and_retention_witness :
    1 ≤ 1 ∧ 2 ≤ ([("a", "b"), ("c", "d")] : List (String × String)).length ∧
    ((CryptoAgent.memory_after 1 (([("a", "b"), ("c", "d")] : List (String × String)).take 2)).length
        = min (2 * 2) (2 * 1) ∧
      CryptoAgent.memory_after 1 (([("a", "b"), ("c", "d")] : List (String × String)).take 2) =
        ((([("a", "b"), ("c", "d")] : List (String × String)).take 2).drop
          (2 - min 2 1)).flatMap CryptoAgent.exchangeTurns) :=
  ⟨by decide, by decide,
    memory_bound_and_retention 1 (by decide) [("a", "b"), ("c", "d")] 2 (by decide)⟩

/-- Claim C10: after every sequence of `_update_memory` calls the memory is a
flattening of whole exchanges — a suffix of the exchange history, each
contributing its human turn then its assistant turn — so its length is even,
roles strictly alternate `human, assistant, …`, and trimming never splits an
exchange. -/
theorem memory_whole_exchanges (W : Nat) (exs : List (String × String)) :
    (∃ j, j ≤ exs.length ∧
      CryptoAgent.memory_after W exs = (exs.drop j).flatMap CryptoAgent.exchangeTurns ∧
      (CryptoAgent.memory_after W exs).map Turn.role =
        (List.replicate (exs.length - j) ["human", "assistant"]).flatten) ∧
    2 ∣ (CryptoAgent.memory_after W exs).length := by
  rcases Nat.eq_zero_or_pos W with h0 | hpos
  · subst h0
    refine ⟨⟨0, Nat.zero_le _, ?_, ?_⟩, ?_⟩
    · rw [CryptoAgent.memory_after_zero, List.drop_zero]
    · rw [CryptoAgent.memory_after_zero, CryptoAgent.roles_exchangeTurns_flatMap]
      simp
    · rw [CryptoAgent.memory_after_zero, CryptoAgent.length_exchangeTurns_flatMap]
      exact ⟨_, rfl⟩
  · have h := CryptoAgent.memory_after_eq W hpos exs
    refine ⟨⟨exs.length - W, by omega, h, ?_⟩, ?_⟩
    · rw [h, CryptoAgent.roles_exchangeTurns_flatMap, List.length_drop]
    · rw [h, CryptoAgent.length_exchangeTurns_flatMap]
      exact ⟨_, rfl⟩

/-- Claim C2: for every model stub that always returns tool-call requests and
never a final answer, the agent loop terminates within the iteration ceiling —
it makes at most `ceiling` model invocations — and `process_message` returns
the degraded answer rather than looping forever. -/
theorem agent_loop_ceiling (model : List AgentLoop.TranscriptEntry → AgentLoop.ModelResult)
    (execute : AgentLoop.ToolCallRequest → AgentLoop.ToolOutcome) (ceiling : Nat)
    (hstub : ∀ t, ∃ calls, model t = .toolCalls calls) :
    (∀ transcript,
      (AgentLoop.loop model execute ceiling transcript).1 = AgentLoop.degraded_answer ∧
      (AgentLoop.loop model execute ceiling transcript).2 ≤ ceiling) ∧
    (∀ system_prompt chat_history user_input,
      AgentLoop.process_message model execute ceiling system_prompt chat_history user_input
        = AgentLoop.degraded_answer) := by
  have main : ∀ (n : Nat) (t : List AgentLoop.TranscriptEntry),
      (AgentLoop.loop model execute n t).1 = AgentLoop.degraded_answer ∧
      (AgentLoop.loop model execute n t).2 ≤ n := by
    intro n
    induction n with
    | zero => intro t; exact ⟨rfl, Nat.le_refl 0⟩
    | succ n ih =>
      intro t
      obtain ⟨calls, hc⟩ := hstub t
      by_cases he : calls.isEmpty
      · simp [AgentLoop.loop, hc, he]
      · have hrest := ih (t ++ calls.map fun c => AgentLoop.tool_turn (execute c))
        have he' : calls.isEmpty = false := by
          cases h : calls.isEmpty
          · rfl
          · exact absurd h he
        simp only [AgentLoop.loop, hc, he', Bool.false_eq_true, if_false]
        exact ⟨hrest.1, by omega⟩
  exact ⟨main ceiling, fun sp ch u => (main ceiling _).1⟩

/-- Witness for Claim C2: a stub model that always requests a `binance_price`
call makes `process_message` return the degraded answer with ceiling 3. -/
theorem agent_loop_ceiling_witness :
    AgentLoop.process_message AgentLoop.stub_model AgentLoop.stub_execute 3 "sys" [] "hi"
      = AgentLoop.degraded_answer :=
  (agent_loop_ceiling AgentLoop.stub_model AgentLoop.stub_execute 3
    (fun _ => ⟨_, rfl⟩)).2 "sys" [] "hi"

/-- Claim C3, counterexample: on an internal fault the chat endpoint does NOT
return a generic failure: the `HTTPException` detail embeds the raw internal
exception text (`str(e)`), so the user-visible response both contains the
internal message "boom" and varies with the internal error text. -/
theorem chat_leaks_internal_error_text :
    Endpoints.chat (fun _ => .error "boom") "s1" "hi"
        = .httpError 500 ("Error processing message: " ++ "boom") ∧
    Endpoints.chat (fun _ => .error "boom") "s1" "hi"
        ≠ Endpoints.chat (fun _ => .error "bust") "s1" "hi" := by
  exact ⟨rfl, by decide⟩

/-- Claim C3 (amended): the boundary always returns a well-formed response —
the success dict, or an `HTTPException` with generic status code 500 and no
stack trace — but on an internal fault the error detail is the string
`"Error processing message: "` followed by the raw internal exception text,
which is therefore included in the user-visible response. -/
theorem chat_boundary_responses (process_message : String → Except String String)
    (session_id message : String) :
    (∀ out, process_message message = .ok out →
      Endpoints.chat process_message session_id message = .response session_id out "success") ∧
    (∀ e, process_message message = .error e →
      Endpoints.chat process_message session_id message
        = .httpError 500 ("Error processing message: " ++ e)) := by
  constructor
  · intro out hout
    simp [Endpoints.chat, hout]
  · intro e he
    simp [Endpoints.chat, he]

/-- Witness for the amended Claim C3 at a concrete faulting handler. -/
theorem chat_boundary_responses_witness :
    Endpoints.chat (fun _ => .error "x") "s" "m"
      = .httpError 500 ("Error processing message: " ++ "x") :=
  (chat_boundary_responses (fun _ => .error "x") "s" "m").2 "x" rfl

/-- Claim C4: the rejection tool's output is a pure function of the query text
(the per-process `hash` being fixed): two calls of `RejectionTool._run` on the
identical query string yield identical output.  The embedding of `_run` reads
nothing besides the query and the hash function — no other state exists. -/
theorem rejection_run_deterministic (pyHash : String → Int) (q₁ q₂ : String)
    (h : q₁ = q₂) :
    RejectionTool.run pyHash q₁ = RejectionTool.run pyHash q₂ := by
  rw [h]

/-- Witness for Claim C4 at a concrete (negative-valued) hash function. -/
theorem rejection_run_deterministic_witness :
    RejectionTool.run (fun s => (s.length : Int) - 100) "What is the weather like today?" =
      RejectionTool.run (fun s => (s.length : Int) - 100) "What is the weather like today?" :=
  rejection_run_deterministic (fun s => (s.length : Int) - 100)
    "What is the weather like today?" "What is the weather like today?" rfl

/-- Claim C8: the detected topic category is given by the fixed
keyword-to-category table, first (case-insensitive substring) match wins, with
default category "general topics" when no keyword matches; and the returned
message names that category and the static redirect target. -/
theorem rejection_topic_and_redirect (pyHash : String → Int) (q : String) :
    ((∀ kv ∈ RejectionTool.topic_keywords, strContains (pyLower q) kv.1 = false) →
      RejectionTool.extract_topic q = "general topics") ∧
    (∀ i (hi : i < RejectionTool.topic_keywords.length),
      strContains (pyLower q) (RejectionTool.topic_keywords.get ⟨i, hi⟩).1 = true →
      (∀ j (hj : j < i),
        strContains (pyLower q) (RejectionTool.topic_keywords.get ⟨j, Nat.lt_trans hj hi⟩).1
          = false) →
      RejectionTool.extract_topic q = (RejectionTool.topic_keywords.get ⟨i, hi⟩).2) ∧
    (∃ s₁ s₂ s₃, RejectionTool.run pyHash q =
      s₁ ++ (RejectionTool.extract_topic q ++ (s₂ ++ (RejectionTool.redirect_target ++ s₃)))) := by
  refine ⟨?_, ?_, ?_⟩
  · intro hall
    simp only [RejectionTool.extract_topic]
    rw [find?_eq_none_of_all _ _ hall]
  · intro i hi hp hfirst
    simp only [RejectionTool.extract_topic]
    rw [find?_eq_get_of_first _ _ i hi hp hfirst]
  · have hrun : RejectionTool.run pyHash q =
        (RejectionTool.responses (RejectionTool.extract_topic q)).getD
          ((pyHash q % 3).toNat) "" := rfl
    have h0 : (0 : Int) ≤ pyHash q % 3 := Int.emod_nonneg _ (by norm_num)
    have h2 : pyHash q % 3 < 3 := Int.emod_lt_of_pos _ (by norm_num)
    have hn : (pyHash q % 3).toNat = 0 ∨ (pyHash q % 3).toNat = 1 ∨ (pyHash q % 3).toNat = 2 := by
      omega
    rcases hn with h | h | h
    · exact ⟨_, _, _, by rw [hrun, h]; rfl⟩
    · exact ⟨_, _, _, by rw [hrun, h]; rfl⟩
    · exact ⟨_, _, _, by rw [hrun, h]; rfl⟩

/-- Witness for Claim C8: on a weather query the first table entry matches and
the detected topic is "weather". -/
theorem rejection_topic_and_redirect_witness :
    RejectionTool.extract_topic "What about the weather?" = "weather" :=
  (rejection_topic_and_redirect (fun _ => 0) "What about the weather?").2.1 0 (by decide)
    (by decide) (fun j hj => absurd hj (Nat.not_lt_zero j))

/-- Unfolding helper: `_run` on a body that raised. -/
theorem binance_run_of_body_error (get_price : String → Except String BinancePriceTool.TickerPrice)
    (get_24hr : String → Except String BinancePriceTool.Ticker24h)
    (now_ms : Int) (now_str : String) (symbol0 : String) (e : String)
    (reqs : List BinancePriceTool.UpstreamRequest)
    (h : BinancePriceTool.body get_price get_24hr now_ms now_str symbol0 = (.error e, reqs)) :
    BinancePriceTool.run get_price get_24hr now_ms now_str symbol0 =
      (.failure {
        error := true
        message := "Failed to retrieve live price data for "
          ++ (pyStrip (pyUpper symbol0) ++ (": " ++ e))
        symbol := pyStrip (pyUpper symbol0)
        data_source := "Binance API"
        status := "ERROR"
        timestamp := now_ms }, reqs) := by
  unfold BinancePriceTool.run
  rw [h]

/-- Unfolding helper: `_run` on a body that succeeded. -/
theorem binance_run_of_body_ok (get_price : String → Except String BinancePriceTool.TickerPrice)
    (get_24hr : String → Except String BinancePriceTool.Ticker24h)
    (now_ms : Int) (now_str : String) (symbol0 : String) (r : BinancePriceTool.PriceResponse)
    (reqs : List BinancePriceTool.UpstreamRequest)
    (h : BinancePriceTool.body get_price get_24hr now_ms now_str symbol0 = (.ok r, reqs)) :
    BinancePriceTool.run get_price get_24hr now_ms now_str symbol0 = (.success r, reqs) := by
  unfold BinancePriceTool.run
  rw [h]

/-- Claim C5: `BinancePriceTool._run` never raises: it always returns data
(a success payload or a structured error payload with `"error": true`), and
any fault raised inside the `try` body is converted into exactly the error
dict built by the `except` handler. -/
theorem binance_run_never_raises (get_price : String → Except String BinancePriceTool.TickerPrice)
    (get_24hr : String → Except String BinancePriceTool.Ticker24h)
    (now_ms : Int) (now_str : String) (symbol0 : String) :
    ((∃ r, (BinancePriceTool.run get_price get_24hr now_ms now_str symbol0).1 = .success r) ∨
      (∃ er, (BinancePriceTool.run get_price get_24hr now_ms now_str symbol0).1 = .failure er ∧
        er.error = true)) ∧
    (∀ e reqs,
      BinancePriceTool.body get_price get_24hr now_ms now_str symbol0 = (.error e, reqs) →
      BinancePriceTool.run get_price get_24hr now_ms now_str symbol0 =
        (.failure {
          error := true
          message := "Failed to retrieve live price data for "
            ++ (pyStrip (pyUpper symbol0) ++ (": " ++ e))
          symbol := pyStrip (pyUpper symbol0)
          data_source := "Binance API"
          status := "ERROR"
          timestamp := now_ms }, reqs)) := by
  constructor
  · rcases hb : BinancePriceTool.body get_price get_24hr now_ms now_str symbol0 with ⟨res, reqs⟩
    cases res with
    | ok r =>
      left
      exact ⟨r, by rw [binance_run_of_body_ok _ _ _ _ _ _ _ hb]⟩
    | error e =>
      right
      exact ⟨_, by rw [binance_run_of_body_error _ _ _ _ _ _ _ hb], rfl⟩
  · intro e reqs he
    exact binance_run_of_body_error _ _ _ _ _ _ _ he

/-- Witness for Claim C5: a timed-out upstream price request on `BTCUSDT`
is returned as the structured error payload. -/
theorem binance_run_never_raises_witness :
    BinancePriceTool.body (fun _ => .error "Request timed out - Binance API might be slow")
        (fun _ => .ok ⟨none, none, none, none, none, none, none, none, none, none, none⟩)
        0 "t" "BTCUSDT"
      = (.error "Request timed out - Binance API might be slow",
          [.tickerPrice (pyUpper (pyStrip (pyUpper "BTCUSDT")))]) ∧
    BinancePriceTool.run (fun _ => .error "Request timed out - Binance API might be slow")
        (fun _ => .ok ⟨none, none, none, none, none, none, none, none, none, none, none⟩)
        0 "t" "BTCUSDT"
      = (.failure {
          error := true
          message := "Failed to retrieve live price data for "
            ++ (pyStrip (pyUpper "BTCUSDT")
              ++ (": " ++ "Request timed out - Binance API might be slow"))
          symbol := pyStrip (pyUpper "BTCUSDT")
          data_source := "Binance API"
          status := "ERROR"
          timestamp := 0 }, [.tickerPrice (pyUpper (pyStrip (pyUpper "BTCUSDT")))]) := by
  refine ⟨rfl, ?_⟩
  exact (binance_run_never_raises _ _ 0 "t" "BTCUSDT").2
    "Request timed out - Binance API might be slow" _ rfl

/-- Claim C6: when the normalized (uppercased, stripped) symbol is shorter
than 6 characters, `_run` issues no upstream request at all and returns the
validation-failure payload. -/
theorem binance_short_symbol_rejected
    (get_price : String → Except String BinancePriceTool.TickerPrice)
    (get_24hr : String → Except String BinancePriceTool.Ticker24h)
    (now_ms : Int) (now_str : String) (symbol0 : String)
    (h : (pyStrip (pyUpper symbol0)).length < 6) :
    (BinancePriceTool.run get_price get_24hr now_ms now_str symbol0).2 = [] ∧
    (BinancePriceTool.run get_price get_24hr now_ms now_str symbol0).1 =
      .failure {
        error := true
        message := "Failed to retrieve live price data for "
          ++ (pyStrip (pyUpper symbol0) ++ (": "
            ++ ("Invalid symbol format: " ++ pyStrip (pyUpper symbol0)
              ++ ". Use format like BTCUSDT")))
        symbol := pyStrip (pyUpper symbol0)
        data_source := "Binance API"
        status := "ERROR"
        timestamp := now_ms } := by
  have hb : BinancePriceTool.body get_price get_24hr now_ms now_str symbol0 =
      (.error ("Invalid symbol format: " ++ pyStrip (pyUpper symbol0)
        ++ ". Use format like BTCUSDT"), []) := by
    unfold BinancePriceTool.body
    rw [if_pos (Or.inr h)]
  rw [binance_run_of_body_error _ _ _ _ _ _ _ hb]
  exact ⟨rfl, rfl⟩

/-- Witness for Claim C6: the one-character symbol "X" is rejected without
any upstream request, whatever the upstream functions would have answered. -/
theorem binance_short_symbol_rejected_witness :
    (pyStrip (pyUpper "X")).length < 6 ∧
    ((BinancePriceTool.run (fun _ => .ok ⟨some 1⟩)
        (fun _ => .ok ⟨none, none, none, none, none, none, none, none, none, none, none⟩)
        7 "t" "X").2 = [] ∧
      (BinancePriceTool.run (fun _ => .ok ⟨some 1⟩)
        (fun _ => .ok ⟨none, none, none, none, none, none, none, none, none, none, none⟩)
        7 "t" "X").1 =
      .failure {
        error := true
        message := "Failed to retrieve live price data for "
          ++ (pyStrip (pyUpper "X") ++ (": "
            ++ ("Invalid symbol format: " ++ pyStrip (pyUpper "X")
              ++ ". Use format like BTCUSDT")))
        symbol := pyStrip (pyUpper "X")
        data_source := "Binance API"
        status := "ERROR"
        timestamp := 7 }) :=
  ⟨by decide, binance_short_symbol_rejected (fun _ => .ok ⟨some 1⟩)
    (fun _ => .ok ⟨none, none, none, none, none, none, none, none, none, none, none⟩)
    7 "t" "X" (by decide)⟩

/-- Claim C7: on a successful lookup the payload carries the current price,
24h change percent (rounded to 2 places), 24h high/low/volume and the
timestamp, and the trend indicator is determined by the sign of the 24h change
percent: `📈` when it is positive, `📉` when negative, `➡️` when zero. -/
theorem binance_success_payload
    (get_price : String → Except String BinancePriceTool.TickerPrice)
    (get_24hr : String → Except String BinancePriceTool.Ticker24h)
    (now_ms : Int) (now_str : String) (symbol0 : String)
    (p : BinancePriceTool.TickerPrice) (s : BinancePriceTool.Ticker24h)
    (hlen : 6 ≤ (pyStrip (pyUpper symbol0)).length)
    (hp : get_price (pyUpper (pyStrip (pyUpper symbol0))) = .ok p)
    (hs : get_24hr (pyUpper (pyStrip (pyUpper symbol0))) = .ok s) :
    ∃ r, (BinancePriceTool.run get_price get_24hr now_ms now_str symbol0).1 = .success r ∧
      r.symbol = pyStrip (pyUpper symbol0) ∧
      r.current_price = p.price.getD 0 ∧
      r.price_change_24h = s.priceChange.getD 0 ∧
      r.price_change_percent_24h = BinancePriceTool.pyRound2 (s.priceChangePercent.getD 0) ∧
      r.high_24h = s.highPrice.getD 0 ∧
      r.low_24h = s.lowPrice.getD 0 ∧
      r.volume_24h = s.volume.getD 0 ∧
      r.timestamp = s.closeTime.getD now_ms ∧
      ((0 : Rat) < s.priceChangePercent.getD 0 → r.trend = "📈") ∧
      (s.priceChangePercent.getD 0 < 0 → r.trend = "📉") ∧
      (s.priceChangePercent.getD 0 = 0 → r.trend = "➡️") := by
  have hne : ¬(pyStrip (pyUpper symbol0) = "" ∨ (pyStrip (pyUpper symbol0)).length < 6) := by
    rintro (h | h)
    · rw [h] at hlen
      have h0 : ("" : String).length = 0 := rfl
      omega
    · omega
  have hb : BinancePriceTool.body get_price get_24hr now_ms now_str symbol0 =
      (.ok {
        symbol := pyStrip (pyUpper symbol0)
        current_price := p.price.getD 0
        price_change_24h := s.priceChange.getD 0
        price_change_percent_24h := BinancePriceTool.pyRound2 (s.priceChangePercent.getD 0)
        high_24h := s.highPrice.getD 0
        low_24h := s.lowPrice.getD 0
        volume_24h := s.volume.getD 0
        quote_volume_24h := s.quoteVolume.getD 0
        open_price := s.openPrice.getD 0
        close_price := s.prevClosePrice.getD 0
        bid_price := s.bidPrice.getD 0
        ask_price := s.askPrice.getD 0
        timestamp := s.closeTime.getD now_ms
        trend := if s.priceChangePercent.getD 0 > 0 then "📈"
          else if s.priceChangePercent.getD 0 < 0 then "📉" else "➡️"
        data_source := "Binance API"
        status := "LIVE"
        last_updated := now_str },
        [.tickerPrice (pyUpper (pyStrip (pyUpper symbol0))),
         .ticker24hr (pyUpper (pyStrip (pyUpper symbol0)))]) := by
    unfold BinancePriceTool.body
    rw [if_neg hne, hp, hs]
  rw [binance_run_of_body_ok _ _ _ _ _ _ _ hb]
  refine ⟨_, rfl, rfl, rfl, rfl, rfl, rfl, rfl, rfl, rfl, ?_, ?_, ?_⟩
  · intro hsign
    simp only [gt_iff_lt, if_pos hsign]
  · intro hsign
    have hnot : ¬ (0 : Rat) < s.priceChangePercent.getD 0 := by
      exact not_lt.mpr (le_of_lt hsign)
    simp only [gt_iff_lt, if_neg hnot, if_pos hsign]
  · intro hsign
    rw [hsign]
    simp

/-- Witness for Claim C7 at a concrete upstream answering price 50000 and a
positive 24h change of 5/2 percent for `BTCUSDT`. -/
theorem binance_success_payload_witness :
    6 ≤ (pyStrip (pyUpper "BTCUSDT")).length ∧
    (∃ r, (BinancePriceTool.run (fun _ => .ok ⟨some 50000⟩)
        (fun _ => .ok ⟨some 1200, some (5 / 2), some 51000, some 49000, some 1000,
          none, none, none, none, none, some 1700000000000⟩) 0 "t" "BTCUSDT").1
        = .success r ∧
      r.symbol = pyStrip (pyUpper "BTCUSDT") ∧
      r.current_price = (some (50000 : Rat)).getD 0 ∧
      r.price_change_24h = (some (1200 : Rat)).getD 0 ∧
      r.price_change_percent_24h = BinancePriceTool.pyRound2 ((some ((5 : Rat) / 2)).getD 0) ∧
      r.high_24h = (some (51000 : Rat)).getD 0 ∧
      r.low_24h = (some (49000 : Rat)).getD 0 ∧
      r.volume_24h = (some (1000 : Rat)).getD 0 ∧
      r.timestamp = (some (1700000000000 : Int)).getD 0 ∧
      ((0 : Rat) < (some ((5 : Rat) / 2)).getD 0 → r.trend = "📈") ∧
      ((some ((5 : Rat) / 2)).getD 0 < 0 → r.trend = "📉") ∧
      ((some ((5 : Rat) / 2)).getD 0 = 0 → r.trend = "➡️")) :=
  ⟨by decide, binance_success_payload (fun _ => .ok ⟨some 50000⟩)
    (fun _ => .ok ⟨some 1200, some (5 / 2), some 51000, some 49000, some 1000,
      none, none, none, none, none, some 1700000000000⟩) 0 "t" "BTCUSDT"
    ⟨some 50000⟩
    ⟨some 1200, some (5 / 2), some 51000, some 49000, some 1000,
      none, none, none, none, none, some 1700000000000⟩
    (by decide) rfl rfl⟩

/-- Unfolding helper: `_run` with a configured vector store. -/
theorem kb_run_some (search : String → Nat → Except String (List KnowledgeBaseTool.Document))
    (query : String) (k : Nat) :
    KnowledgeBaseTool.run (some search) query k =
      match search query k with
      | .error e => .text ("Error searching knowledge base: " ++ e)
      | .ok results =>
        if results.isEmpty then .text "No relevant information found in the knowledge base."
        else .json query (KnowledgeBaseTool.format_results 1 results)
          (KnowledgeBaseTool.format_results 1 results).length := rfl

/-- Claim C9: the knowledge tool returns an explicit unavailability message
when the index is unavailable; an explicit error message (never a raised
fault) when the search raises; an explicit "no results" message on an empty
hit list; and otherwise up to `k` ranked matches (numbered from 1, in rank
order) carrying content and source metadata.  The schema default for `k`
is 5. -/
theorem kb_run_contract
    (vector_store : Option (String → Nat → Except String (List KnowledgeBaseTool.Document)))
    (query : String) (k : Nat) :
    (vector_store = none → KnowledgeBaseTool.run vector_store query k =
      .text "Knowledge base is not available. Please check the configuration.") ∧
    (∀ search, vector_store = some search → ∀ e, search query k = .error e →
      KnowledgeBaseTool.run vector_store query k =
        .text ("Error searching knowledge base: " ++ e)) ∧
    (∀ search, vector_store = some search → search query k = .ok [] →
      KnowledgeBaseTool.run vector_store query k =
        .text "No relevant information found in the knowledge base.") ∧
    (∀ search docs, vector_store = some search → search query k = .ok docs → docs ≠ [] →
      KnowledgeBaseTool.run vector_store query k =
        .json query (KnowledgeBaseTool.format_results 1 docs) docs.length ∧
      (KnowledgeBaseTool.format_results 1 docs).map KnowledgeBaseTool.FormattedResult.content
        = docs.map KnowledgeBaseTool.Document.page_content ∧
      (KnowledgeBaseTool.format_results 1 docs).map KnowledgeBaseTool.FormattedResult.metadata
        = docs.map KnowledgeBaseTool.Document.metadata ∧
      (KnowledgeBaseTool.format_results 1 docs).map KnowledgeBaseTool.FormattedResult.result
        = List.range' 1 docs.length ∧
      (docs.length ≤ k → (KnowledgeBaseTool.format_results 1 docs).length ≤ k)) ∧
    (KnowledgeBaseTool.run vector_store query = KnowledgeBaseTool.run vector_store query 5) := by
  refine ⟨?_, ?_, ?_, ?_, rfl⟩
  · intro h
    rw [h]
    rfl
  · intro search hsome e he
    rw [hsome, kb_run_some, he]
  · intro search hsome hempty
    rw [hsome, kb_run_some, hempty]
    rfl
  · intro search docs hsome hok hne
    refine ⟨?_, KnowledgeBaseTool.format_results_content 1 docs,
      KnowledgeBaseTool.format_results_metadata 1 docs,
      KnowledgeBaseTool.format_results_ranks 1 docs,
      fun hk => by rw [KnowledgeBaseTool.format_results_length]; omega⟩
    have hempty : docs.isEmpty = false := by
      cases docs with
      | nil => exact absurd rfl hne
      | cons d ds => rfl
    rw [hsome, kb_run_some, hok]
    simp only [hempty, Bool.false_eq_true, if_false]
    rw [KnowledgeBaseTool.format_results_length]

/-- Witness for Claim C9: with no vector store configured the tool answers
with the explicit unavailability message. -/
theorem kb_run_contract_witness :
    KnowledgeBaseTool.run none "what is DCA" 5 =
      .text "Knowledge base is not available. Please check the configuration." :=
  (kb_run_contract none "what is DCA" 5).1 rfl
